import Mathlib

/-!
Verification of the chargeback cost-allocation core
(`src/data_processing/data_handlers/chargeback_handler.py`).

Modelling conventions:

* `decimal.Decimal` values are modelled as exact rationals (`ℚ`).  The
  28-significant-digit context rounding of the Python `decimal` module is not
  modelled; every fact proved below is stable under that rounding (equalities
  to simple constants fail both with and without rounding, and all
  error/crash behaviour is independent of the arithmetic).  Conversion of a
  Python `float` literal to `Decimal` is exact in Python and is modelled by
  the exact rational value of the IEEE-754 double.

* Hour timestamps are modelled as integers (hour index); the code only ever
  compares them for equality and order and adds whole hours/days.

* The python `dict` objects (`chargeback_dataset`, `detailed_split`) are
  modelled as insertion-ordered association lists: an update keeps the
  entry position, a new key is appended at the end, deletion keeps the
  order of the remaining entries.  This matches CPython dict semantics.

* Statements raising exceptions are modelled with an `Option String` /
  `Except String` error component.  A loop whose body raises on its first
  iteration contributes no merges, matching CPython evaluation order.
-/

namespace Chargeback

/-- `decimal.Decimal` modelled as an exact rational. -/
abbrev Dec := ℚ

/-- Exact value of the IEEE-754 double `0.30`; `decimal.Decimal(0.30)`
converts the binary float exactly, so this — and not `3/10` — is the value of
`common_charge_ratio` after conversion in the `KafkaNumCKUs` branch. -/
def dec_0_30 : Dec := 5404319552844595 / 2 ^ 54

/-- Exact value of the IEEE-754 double `0.70` (`usage_charge_ratio`). -/
def dec_0_70 : Dec := 3152519739159347 / 2 ^ 52

/-- One billing row, as destructured at the top of `compute_output`
(`row_ts, row_env, row_cid, row_pname, row_ptype` from the index plus the
`cluster_name` and `calc_split_total` columns). -/
structure BillingRow where
  row_ts : Int
  row_env : String
  row_cid : String
  row_pname : String
  row_ptype : String
  row_cname : String
  row_cost : Dec
deriving Repr, DecidableEq

/-- One usage-metric row (timestamp, cluster, principal and the two
measurement columns used by the rules: produced and consumed bytes). -/
structure MetricRow where
  timestamp : Int
  cluster_id : String
  principal_id : String
  request_bytes : Dec
  response_bytes : Dec
deriving Repr, DecidableEq

/-- A connector record from the inventory (owner, cluster, environment,
connector name), as consumed by the Connect rules. -/
structure Connector where
  owner_id : String
  cluster_id : String
  env_id : String
  connector_name : String
deriving Repr, DecidableEq

/-- A Kafka cluster record (cluster id, environment id). -/
structure KafkaCluster where
  cluster_id : String
  env_id : String
deriving Repr, DecidableEq

/-- A ksqlDB cluster record (cluster id, owner id). -/
structure KsqldbCluster where
  cluster_id : String
  owner_id : String
deriving Repr, DecidableEq

/-- The inventory/lookup provider (`objects_dataset`), an external
collaborator: only its read capabilities used by `compute_output` are
modelled.  `find_sa_count_for_clusters` returns, per cluster, the dict
mapping each API-key-holding service account to its key count. -/
structure CCloudObjects where
  find_sa_count_for_clusters : String → List (String × Nat)
  sa_ids : List String
  user_ids : List String
  connectors : List Connector
  clusters : List KafkaCluster
  ksqldb_clusters : List KsqldbCluster

/-- `detailed_split`: the per-product-type breakdown dict of one ledger
entry, as an insertion-ordered association list. -/
abbrev DetailedSplit := List (String × Dec)

/-- `detailed_split.get(product_type_name, Decimal(0))`. -/
def DetailedSplit.get : DetailedSplit → String → Dec
  | [], _ => 0
  | (k, v) :: rest, key => if k = key then v else DetailedSplit.get rest key

/-- `detailed_split[product_type_name] = detailed_split.get(...) + delta`:
updates the key in place or appends it at the end. -/
def DetailedSplit.add : DetailedSplit → String → Dec → DetailedSplit
  | [], key, delta => [(key, delta)]
  | (k, v) :: rest, key, delta =>
      if k = key then (k, v + delta) :: rest
      else (k, v) :: DetailedSplit.add rest key delta

/-- One value of `chargeback_dataset`: the tuple
`(usage_cost, shared_cost, detailed_split)`. -/
structure ChargebackEntry where
  usage_cost : Dec
  shared_cost : Dec
  detailed_split : DetailedSplit
deriving DecidableEq

/-- `chargeback_dataset`: dict keyed by `(principal, time_slice)`, as an
insertion-ordered association list. -/
abbrev ChargebackDataset := List ((String × Int) × ChargebackEntry)

/-- `__add_cost_to_chargeback_dataset(principal, time_slice,
product_type_name, additional_usage_cost, additional_shared_cost)`:
if the key is present, add the usage delta to `usage_cost`, the shared delta
to `shared_cost` and `shared + usage` to `detailed_split[product_type]`;
otherwise append a fresh entry whose split holds `shared + usage` under the
product type. -/
def add_cost_to_chargeback_dataset :
    ChargebackDataset → String → Int → String → Dec → Dec → ChargebackDataset
  | [], principal, time_slice, ptype, usage, shared =>
      [((principal, time_slice), ⟨usage, shared, [(ptype, shared + usage)]⟩)]
  | (key, e) :: rest, principal, time_slice, ptype, usage, shared =>
      if key = (principal, time_slice) then
        (key, ⟨e.usage_cost + usage, e.shared_cost + shared,
               e.detailed_split.add ptype (shared + usage)⟩) :: rest
      else
        (key, e) :: add_cost_to_chargeback_dataset rest principal time_slice ptype usage shared

/-- The arguments of one call to `__add_cost_to_chargeback_dataset`
(one contribution produced by a rule). -/
structure CostItem where
  principal : String
  time_slice : Int
  product_type_name : String
  additional_usage_cost : Dec
  additional_shared_cost : Dec
deriving Repr, DecidableEq

/-- Apply one contribution to the dataset. -/
def apply_cost_item (ds : ChargebackDataset) (it : CostItem) : ChargebackDataset :=
  add_cost_to_chargeback_dataset ds it.principal it.time_slice it.product_type_name
    it.additional_usage_cost it.additional_shared_cost

/-- The ledger invariant of one entry:
`usage_cost + shared_cost == sum(detailed_split.values())`. -/
def entry_invariant (e : ChargebackEntry) : Prop :=
  e.usage_cost + e.shared_cost = (e.detailed_split.map Prod.snd).sum

instance (e : ChargebackEntry) : Decidable (entry_invariant e) := by
  unfold entry_invariant; infer_instance

/-- Result of processing one billing row inside `compute_output`: the
contributions actually merged before the row finished or raised, the
exception (if any) that aborted the row, and the warning prints emitted. -/
structure RowResult where
  items : List CostItem
  error : Option String
  logs : List String
deriving Repr, DecidableEq

/-- First line of any branch that calls
`self.chargeback_dataset.__add_cost_to_chargeback_dataset(...)`: under name
mangling this looks up attribute
`_CCloudChargebackHandler__add_cost_to_chargeback_dataset` on a plain dict
and raises before any cost is recorded. -/
def datasetAttrError : String :=
  "AttributeError: dict object has no attribute _CCloudChargebackHandler__add_cost_to_chargeback_dataset"

/-- The `KafkaNumCKUs` usage branch iterates `query_dataset.values()` where
`query_dataset` is a python list, which has no `values` method. -/
def listValuesError : String :=
  "AttributeError: list object has no attribute values"

/-- The `EventLogRead` branch reads the bare name `objects_dataset`
(missing `self.`), which is not defined in any enclosing scope. -/
def eventLogNameError : String :=
  "NameError: name objects_dataset is not defined"

/-- The `ConnectCapacity` branch reads `self.cc_objects`, an attribute the
handler does not have (the field is named `objects_dataset`). -/
def ccObjectsAttrError : String :=
  "AttributeError: CCloudChargebackHandler object has no attribute cc_objects"

/-- The `KafkaNetworkRead` ratio transform evaluates
`decimal.Decimal(agg_data.loc[["sum"]][col_name])` per element; the argument
is a one-element pandas Series, which `Decimal` rejects. -/
def seriesDecimalError : String :=
  "TypeError: conversion from Series to Decimal is not supported"

/-- The shared-cost component of the `KafkaNumCKUs` rule
(lines 331-354): `cost * Decimal(0.30)` split equally across the API-key
holders, or attributed whole to the cluster id when there are none. -/
def cku_shared_component (row : BillingRow) (sa_count : List (String × Nat)) :
    List CostItem :=
  if 0 < sa_count.length then
    sa_count.map (fun sa =>
      ⟨sa.1, row.row_ts, row.row_ptype, 0,
        row.row_cost * dec_0_30 / (sa_count.length : Dec)⟩)
  else
    [⟨row.row_cid, row.row_ts, row.row_ptype, 0, row.row_cost * dec_0_30⟩]

/-- The metric rows the `KafkaNumCKUs` branch selects: every metric row at
this time slice for this cluster (no positivity filter). -/
def cku_metric_rows (metrics_data : List MetricRow) (time_slice : Int)
    (cid : String) : List MetricRow :=
  metrics_data.filter (fun m =>
    decide (m.timestamp = time_slice) && decide (m.cluster_id = cid))

/-- One billing row of `compute_output` (the body of the
`for bill_row in billing_data.itertuples(...)` loop, lines 199-580):
dispatch on the product type, produce the contributions merged into
`chargeback_dataset`, the exception aborting the row (if any) and the
warning prints.  Branches are in source order. -/
def compute_output_row (row : BillingRow) (objects : CCloudObjects)
    (metrics_data : List MetricRow) (time_slice : Int) : RowResult :=
  if row.row_ptype = "KafkaBase" then
    let sa_count := objects.find_sa_count_for_clusters row.row_cid
    if 0 < sa_count.length then
      -- the split loop calls the merge through `self.chargeback_dataset`,
      -- so its first iteration raises and nothing is merged
      ⟨[], some datasetAttrError, []⟩
    else
      ⟨[⟨row.row_cid, row.row_ts, row.row_ptype, 0, row.row_cost⟩], none,
       ["No API Keys available for cluster; attributing KafkaBase as Cluster Shared Cost"]⟩
  else if row.row_ptype = "KafkaNetworkRead" then
    let metric_rows := metrics_data.filter (fun m =>
      decide (0 < m.response_bytes) && decide (m.timestamp = time_slice)
        && decide (m.cluster_id = row.row_cid))
    if metric_rows ≠ [] then
      -- the ratio transform raises on its first element (and the merge loop
      -- after it goes through `self.chargeback_dataset` as well)
      ⟨[], some seriesDecimalError, []⟩
    else
      ⟨[⟨row.row_cid, row.row_ts, row.row_ptype, 0, row.row_cost⟩], none,
       ["Could not map KafkaNetworkRead; attributing as Cluster Shared Cost"]⟩
  else if row.row_ptype = "KafkaNetworkWrite" then
    let metric_rows := metrics_data.filter (fun m =>
      decide (0 < m.request_bytes) && decide (m.timestamp = time_slice)
        && decide (m.cluster_id = row.row_cid))
    if metric_rows ≠ [] then
      let agg_value := (metric_rows.map MetricRow.request_bytes).sum
      ⟨metric_rows.map (fun m =>
        ⟨m.principal_id, row.row_ts, row.row_ptype,
         row.row_cost * (m.request_bytes / agg_value), 0⟩), none, []⟩
    else
      ⟨[⟨row.row_cid, row.row_ts, row.row_ptype, 0, row.row_cost⟩], none,
       ["Could not map KafkaNetworkWrite; attributing as Cluster Shared Cost"]⟩
  else if row.row_ptype = "KafkaNumCKUs" then
    let sa_count := objects.find_sa_count_for_clusters row.row_cid
    let shared_items := cku_shared_component row sa_count
    let shared_logs :=
      if 0 < sa_count.length then []
      else ["No API Keys were found for cluster; attributing Common Cost component as Cluster Shared Cost"]
    let metric_rows := cku_metric_rows metrics_data time_slice row.row_cid
    if metric_rows ≠ [] then
      -- `for metric_item in query_dataset.values()` raises: the usage part
      -- merges nothing, leaving only the shared component in the ledger
      ⟨shared_items, some listValuesError, shared_logs⟩
    else if 0 < sa_count.length then
      ⟨shared_items ++ sa_count.map (fun sa =>
        ⟨sa.1, row.row_ts, row.row_ptype, 0,
          row.row_cost * dec_0_70 / (sa_count.length : Dec)⟩), none,
       shared_logs ++ ["No Production or Consumption activity; splitting Usage Ratio across all Service Accounts as Shared Cost"]⟩
    else
      ⟨shared_items ++ [⟨row.row_cid, row.row_ts, row.row_ptype, 0,
        row.row_cost * dec_0_70⟩], none,
       shared_logs ++ ["No Production or Consumption activity and no API Keys; attributing as Cluster Shared Cost"]⟩
  else if row.row_ptype = "KafkaPartition" ∨ row.row_ptype = "KafkaStorage" then
    let sa_count := objects.find_sa_count_for_clusters row.row_cid
    if 0 < sa_count.length then
      ⟨sa_count.map (fun sa =>
        ⟨sa.1, row.row_ts, row.row_ptype, 0,
          row.row_cost / (sa_count.length : Dec)⟩), none, []⟩
    else
      ⟨[⟨row.row_cid, row.row_ts, row.row_ptype, 0, row.row_cost⟩], none,
       ["No API Keys available for cluster; attributing as Cluster Shared Cost"]⟩
  else if row.row_ptype = "EventLogRead" then
    -- `list(objects_dataset.cc_users.users.keys())` reads an undefined bare
    -- name: the row raises before computing any identity or merging
    ⟨[], some eventLogNameError, []⟩
  else if row.row_ptype = "ConnectCapacity" then
    -- `self.cc_objects` does not exist on the handler: the identity
    -- comprehension raises before any branch is taken
    ⟨[], some ccObjectsAttrError, []⟩
  else if row.row_ptype = "ConnectNumTasks" ∨ row.row_ptype = "ConnectThroughput" then
    let active_identities := ((objects.connectors.filter (fun c =>
      decide (c.env_id = row.row_env) && decide (c.connector_name = row.row_cname))).map
        Connector.owner_id).dedup
    if 0 < active_identities.length then
      ⟨active_identities.map (fun owner =>
        ⟨owner, row.row_ts, row.row_ptype,
          row.row_cost / (active_identities.length : Dec), 0⟩), none, []⟩
    else
      ⟨[⟨row.row_cid, row.row_ts, row.row_ptype, 0, row.row_cost⟩], none,
       ["No Connector Details were found; adding cost as Shared Cost"]⟩
  else if row.row_ptype = "ClusterLinkingPerLink" then
    ⟨[⟨row.row_cid, row.row_ts, row.row_ptype, 0, row.row_cost⟩], none, []⟩
  else if row.row_ptype = "ClusterLinkingRead" then
    ⟨[⟨row.row_cid, row.row_ts, row.row_ptype, 0, row.row_cost⟩], none, []⟩
  else if row.row_ptype = "ClusterLinkingWrite" then
    ⟨[⟨row.row_cid, row.row_ts, row.row_ptype, 0, row.row_cost⟩], none, []⟩
  else if row.row_ptype = "GovernanceBase" ∨ row.row_ptype = "SchemaRegistry" then
    let active_identities := ((objects.clusters.filter (fun c =>
      decide (c.env_id = row.row_env))).map KafkaCluster.cluster_id).dedup
    if 0 < active_identities.length then
      -- the split loop calls the merge through `self.chargeback_dataset`,
      -- so its first iteration raises and nothing is merged
      ⟨[], some datasetAttrError, []⟩
    else
      ⟨[⟨row.row_env, row.row_ts, row.row_ptype, 0, row.row_cost⟩], none,
       ["No Kafka Clusters present within the environment; attributing as Shared Cost to the environment"]⟩
  else if row.row_ptype = "KSQLNumCSUs" then
    let active_identities := ((objects.ksqldb_clusters.filter (fun c =>
      decide (c.cluster_id = row.row_cid))).map KsqldbCluster.owner_id).dedup
    if 0 < active_identities.length then
      ⟨active_identities.map (fun owner =>
        ⟨owner, row.row_ts, row.row_ptype,
          row.row_cost / (active_identities.length : Dec), 0⟩), none, []⟩
    else
      ⟨[⟨row.row_cid, row.row_ts, row.row_ptype, 0, row.row_cost⟩], none,
       ["No KSQL Cluster Details were found; attributing as Shared Cost for the ksqlDB cluster id"]⟩
  else
    ⟨[], none,
     ["No Chargeback calculation available for this product type. Please request for it to be added."]⟩

/-- Fold the contributions of one row into the dataset (each contribution is
one successful call to `__add_cost_to_chargeback_dataset`). -/
def apply_row_result (ds : ChargebackDataset) (r : RowResult) : ChargebackDataset :=
  r.items.foldl apply_cost_item ds

/-- `compute_output(time_slice)` restricted to its observable effect on
`chargeback_dataset`: process the billing rows of the slice in order; an
exception in a row keeps the merges already performed (dict mutation is not
rolled back) and aborts the remaining rows, propagating the error. -/
def compute_output (billing_data : List BillingRow) (objects : CCloudObjects)
    (metrics_data : List MetricRow) (time_slice : Int)
    (ds : ChargebackDataset) : ChargebackDataset × Option String :=
  match billing_data with
  | [] => (ds, none)
  | row :: rest =>
      let r := compute_output_row row objects metrics_data time_slice
      let ds1 := apply_row_result ds r
      match r.error with
      | some e => (ds1, some e)
      | none => compute_output rest objects metrics_data time_slice ds1

/-- The handler state relevant to the window/eviction claims:
`start_date` (hour index of the window start), `days_per_query` and the
ledger. -/
structure HandlerState where
  start_date : Int
  days_per_query : Int
  chargeback_dataset : ChargebackDataset

/-- `cleanup_old_data`: delete every ledger entry whose hour
(`k2` of the key) is strictly before `self.start_date`; dict deletion keeps
the order of the remaining entries. -/
def cleanup_old_data (s : HandlerState) : HandlerState :=
  { s with chargeback_dataset :=
      s.chargeback_dataset.filter (fun e => !decide (e.1.2 < s.start_date)) }

/-- The external billing and metrics providers, giving the rows of one
hourly time slice. -/
structure Providers where
  billing : Int → List BillingRow
  metrics : Int → List MetricRow

/-- Modelled from the spec: `_generate_date_range_per_row` (inherited from
`AbstractDataHandler`, not under `src/`) yields the hourly instants
`[start, start+1h, ..., end)`. -/
def generate_date_range_per_row (start_date end_date : Int) : List Int :=
  (List.range (end_date - start_date).toNat).map (fun i => start_date + i)

/-- `read_all(start_date, end_date)`: run `compute_output` for every hourly
slice of the range; an exception aborts the remaining slices but the
dataset mutations already made persist. -/
def read_all (P : Providers) (objects : CCloudObjects) (s : HandlerState)
    (start_date end_date : Int) : HandlerState × Option String :=
  let step := fun (acc : ChargebackDataset × Option String) (slice : Int) =>
    match acc.2 with
    | some e => (acc.1, some e)
    | none => compute_output (P.billing slice) objects (P.metrics slice) slice acc.1
  let out := (generate_date_range_per_row start_date end_date).foldl step
    (s.chargeback_dataset, none)
  ({ s with chargeback_dataset := out.1 }, out.2)

/-- `read_next_dataset`: slide the window one `days_per_query` forward
(hours advance by `24 * days_per_query`), evict with the NEW start as
cutoff, then compute the new window. -/
def read_next_dataset (P : Providers) (objects : CCloudObjects)
    (s : HandlerState) : HandlerState × Option String :=
  let s1 := { s with start_date := s.start_date + 24 * s.days_per_query }
  let s2 := cleanup_old_data s1
  read_all P objects s2 s1.start_date (s1.start_date + 24 * s1.days_per_query)

/-- Constructor arguments of the handler that matter to the exposure
claims. -/
structure HandlerConfig where
  start_date : Int
  days_per_query : Int

/-- The first statement of `__post_init__` after the two `__init__` calls:
`self.start_date.replace(tzinfo=utc).combine(time=time.min)`.
`datetime.combine` is a classmethod whose first parameter `date` is not
bound by an instance call, so passing only `time=` raises `TypeError`
before any further initialization (the cursor is never set). -/
def combine_without_date (_start_date : Int) : Except String Int :=
  Except.error "TypeError: combine missing required argument date (pos 1)"

/-- The post-construction state the exposure claims are about: the
normalized window start and the exposure cursor `curr_export_datetime`. -/
structure ExposureState where
  start_date : Int
  curr_export_datetime : Int
deriving Repr, DecidableEq

/-- Modelled from the spec: `__generate_next_timestamp` (inherited from
`AbstractDataHandler`, not under `src/`) — on each trigger
`next = cursor + 1 hour`. -/
def generate_next_timestamp (curr_date : Int) : Int :=
  curr_date + 1

/-- `update(notifier)` restricted to the cursor: expose the slice at
`next = generate_next_timestamp(cursor)` and set the cursor to it. -/
def update (s : ExposureState) : ExposureState :=
  { s with curr_export_datetime := generate_next_timestamp s.curr_export_datetime }

/-- `__post_init__` restricted to the exposure state: normalize the start
date (which raises, see `combine_without_date`); had it succeeded, the
cursor would be set to `start - 1h` and then `update` would already be
invoked once during construction. -/
def post_init (cfg : HandlerConfig) : Except String ExposureState := do
  let sd ← combine_without_date cfg.start_date
  let s0 : ExposureState := { start_date := sd, curr_export_datetime := sd - 1 }
  pure (update s0)

/-! ### Helper lemmas (shared) -/

/-- Adding `v` under a key raises the sum of the split values by `v`. -/
theorem DetailedSplit.add_sum (s : DetailedSplit) (k : String) (v : Dec) :
    (((s.add k v)).map Prod.snd).sum = (s.map Prod.snd).sum + v := by
  induction s with
  | nil => simp [DetailedSplit.add]
  | cons hd tl ih =>
      obtain ⟨hk, hv⟩ := hd
      by_cases h : hk = k
      · simp [DetailedSplit.add, h]
        ring
      · simp [DetailedSplit.add, h, ih]
        ring

/-- One merge preserves the per-entry invariant across the dataset. -/
theorem add_cost_preserves_invariant (ds : ChargebackDataset) (p : String)
    (t : Int) (pt : String) (u s : Dec)
    (h : ∀ e ∈ ds, entry_invariant e.2) :
    ∀ e ∈ add_cost_to_chargeback_dataset ds p t pt u s, entry_invariant e.2 := by
  induction ds with
  | nil =>
      intro e he
      simp [add_cost_to_chargeback_dataset] at he
      subst he
      simp [entry_invariant]
      ring
  | cons hd tl ih =>
      obtain ⟨key, en⟩ := hd
      intro e he
      by_cases hk : key = (p, t)
      · simp [add_cost_to_chargeback_dataset, hk] at he
        rcases he with he | he
        · subst he
          have hhd := h ((p, t), en) (by simp [hk])
          simp [entry_invariant, DetailedSplit.add_sum] at hhd ⊢
          linarith
        · exact h _ (List.mem_cons_of_mem _ he)
      · simp only [add_cost_to_chargeback_dataset, if_neg hk] at he
        rcases List.mem_cons.mp he with he | he
        · subst he
          exact h _ (List.mem_cons_self _ _)
        · exact ih (fun x hx => h x (List.mem_cons_of_mem _ hx)) e he

/-- Folding any merge sequence preserves the per-entry invariant. -/
theorem foldl_apply_cost_item_invariant (ops : List CostItem) :
    ∀ ds : ChargebackDataset, (∀ e ∈ ds, entry_invariant e.2) →
      ∀ e ∈ ops.foldl apply_cost_item ds, entry_invariant e.2 := by
  induction ops with
  | nil => intro ds h e he; exact h e he
  | cons op rest ih =>
      intro ds h e he
      simp only [List.foldl_cons] at he
      exact ih _ (add_cost_preserves_invariant _ _ _ _ _ _ h) e he

/-- Merging under an absent key appends a fresh entry at the end. -/
theorem add_cost_absent (ds : ChargebackDataset) (p : String) (t : Int)
    (pt : String) (u s : Dec) (h : ∀ x ∈ ds, x.1 ≠ (p, t)) :
    add_cost_to_chargeback_dataset ds p t pt u s
      = ds ++ [((p, t), ⟨u, s, [(pt, s + u)]⟩)] := by
  induction ds with
  | nil => simp [add_cost_to_chargeback_dataset]
  | cons hd tl ih =>
      obtain ⟨key, en⟩ := hd
      have hk : key ≠ (p, t) := h (key, en) (List.mem_cons_self _ _)
      simp only [add_cost_to_chargeback_dataset, if_neg hk, List.cons_append,
        List.cons.injEq, true_and]
      exact ih (fun x hx => h x (List.mem_cons_of_mem _ hx))

/-- Merging under a present key mutates that entry in place: the usage delta
is added to `usage_cost`, the shared delta to `shared_cost`, and their sum to
`detailed_split[product_type]`. -/
theorem add_cost_present (ds₁ ds₂ : ChargebackDataset) (e : ChargebackEntry)
    (p : String) (t : Int) (pt : String) (u s : Dec)
    (h : ∀ x ∈ ds₁, x.1 ≠ (p, t)) :
    add_cost_to_chargeback_dataset (ds₁ ++ ((p, t), e) :: ds₂) p t pt u s
      = ds₁ ++ ((p, t), ⟨e.usage_cost + u, e.shared_cost + s,
          e.detailed_split.add pt (s + u)⟩) :: ds₂ := by
  induction ds₁ with
  | nil => simp [add_cost_to_chargeback_dataset]
  | cons hd tl ih =>
      obtain ⟨key, en⟩ := hd
      have hk : key ≠ (p, t) := h (key, en) (List.mem_cons_self _ _)
      simp only [List.cons_append, add_cost_to_chargeback_dataset, if_neg hk,
        List.cons.injEq, true_and]
      exact ih (fun x hx => h x (List.mem_cons_of_mem _ hx))

/-! ### Concrete fixtures used by witnesses and evaluation theorems -/

/-- A merge sequence fixture: two contributions to the same key. -/
def opsEx : List CostItem :=
  [⟨"sa-1", 0, "KafkaBase", 1, 2⟩, ⟨"sa-1", 0, "KafkaStorage", 3, 0⟩]

/-! ### Claim theorems -/

/-- C3 — Ledger invariant: after any sequence of calls to
`__add_cost_to_chargeback_dataset` with non-negative deltas, every entry of
`chargeback_dataset` satisfies
`usage_cost + shared_cost == sum(detailed_split.values())`; an entry is
created on first contribution (appended with the deltas and a one-key split)
and otherwise mutated only by adding the usage delta to `usage_cost`, the
shared delta to `shared_cost`, and their sum to
`detailed_split[product_type]` (absent key read as 0). -/
theorem ledger_invariant_after_merges :
    (∀ ops : List CostItem,
        (∀ op ∈ ops, 0 ≤ op.additional_usage_cost ∧ 0 ≤ op.additional_shared_cost) →
        ∀ e ∈ ops.foldl apply_cost_item ([] : ChargebackDataset), entry_invariant e.2)
    ∧ (∀ (ds : ChargebackDataset) (p : String) (t : Int) (pt : String) (u s : Dec),
        (∀ x ∈ ds, x.1 ≠ (p, t)) →
        add_cost_to_chargeback_dataset ds p t pt u s
          = ds ++ [((p, t), ⟨u, s, [(pt, s + u)]⟩)])
    ∧ (∀ (ds₁ ds₂ : ChargebackDataset) (e : ChargebackEntry) (p : String)
        (t : Int) (pt : String) (u s : Dec),
        (∀ x ∈ ds₁, x.1 ≠ (p, t)) →
        add_cost_to_chargeback_dataset (ds₁ ++ ((p, t), e) :: ds₂) p t pt u s
          = ds₁ ++ ((p, t), ⟨e.usage_cost + u, e.shared_cost + s,
              e.detailed_split.add pt (s + u)⟩) :: ds₂) := by
  refine ⟨fun ops _ => foldl_apply_cost_item_invariant ops [] (by simp), ?_, ?_⟩
  · exact add_cost_absent
  · exact add_cost_present

/-- C3 witness: the theorem applied at a concrete merge sequence and at
concrete absent/present merges. -/
theorem ledger_invariant_after_merges_witness :
    entry_invariant (⟨(4 : ℚ), (2 : ℚ), [("KafkaBase", 3), ("KafkaStorage", 3)]⟩ : ChargebackEntry)
    ∧ add_cost_to_chargeback_dataset [(("b", 1), ⟨1, 0, [("X", 1)]⟩)] "a" 0 "T" 1 2
        = [(("b", 1), ⟨1, 0, [("X", 1)]⟩), (("a", 0), ⟨1, 2, [("T", (2 : ℚ) + 1)]⟩)]
    ∧ add_cost_to_chargeback_dataset [(("a", 0), ⟨1, 2, [("T", 3)]⟩)] "a" 0 "T" 4 5
        = [(("a", 0), ⟨(1 : ℚ) + 4, (2 : ℚ) + 5, DetailedSplit.add [("T", 3)] "T" ((5 : ℚ) + 4)⟩)] := by
  have h1 := ledger_invariant_after_merges.1 opsEx (by norm_num [opsEx])
  have hm : ((("sa-1", (0 : Int)),
      (⟨4, 2, [("KafkaBase", 3), ("KafkaStorage", 3)]⟩ : ChargebackEntry)))
      ∈ opsEx.foldl apply_cost_item ([] : ChargebackDataset) := by
    simp [opsEx, apply_cost_item, add_cost_to_chargeback_dataset, DetailedSplit.add]
    norm_num
  have h2 := ledger_invariant_after_merges.2.1
    [(("b", 1), ⟨1, 0, [("X", 1)]⟩)] "a" 0 "T" 1 2 (by simp)
  have h3 := ledger_invariant_after_merges.2.2
    [] [] (⟨1, 2, [("T", 3)]⟩ : ChargebackEntry) "a" 0 "T" 4 5 (by simp)
  exact ⟨h1 _ hm, h2, by simpa using h3⟩

/-- C7 — Initial exposure state: construction does not leave the cursor at
`S - 1h`: `__post_init__` raises a `TypeError` at the start-date
normalization (the `combine` call), for every configuration, so no
post-construction state exists at all; moreover, even along the intended
initialization path, the construction-time `update()` call would advance the
cursor from `S - 1h` to `S`, so the first external trigger would expose
`S + 1h`, not `S`. -/
theorem post_init_raises_type_error :
    (∀ cfg : HandlerConfig,
        post_init cfg
          = Except.error "TypeError: combine missing required argument date (pos 1)")
    ∧ ∀ sd : Int, (update ⟨sd, sd - 1⟩).curr_export_datetime = sd := by
  constructor
  · intro cfg
    rfl
  · intro sd
    simp [update, generate_next_timestamp]

/-- A handler-state fixture with one entry before and one after the window
start. -/
def stateEx : HandlerState :=
  { start_date := 5, days_per_query := 7,
    chargeback_dataset :=
      [(("a", 3), ⟨1, 2, [("KafkaBase", 3)]⟩),
       (("b", 7), ⟨0, 1, [("KafkaStorage", 1)]⟩)] }

/-- C8 — Eviction frame: after `cleanup_old_data` no entry with hour before
`start_date` remains; every entry at or after it is still present unchanged
(the same key/value pair); and `read_next_dataset` first advances the window
start by `days_per_query` days, evicts with the NEW start as cutoff, and only
then computes the new window. -/
theorem eviction_frame :
    (∀ s : HandlerState, ∀ e ∈ (cleanup_old_data s).chargeback_dataset,
        s.start_date ≤ e.1.2)
    ∧ (∀ s : HandlerState, ∀ e ∈ s.chargeback_dataset,
        s.start_date ≤ e.1.2 → e ∈ (cleanup_old_data s).chargeback_dataset)
    ∧ (∀ (P : Providers) (objects : CCloudObjects) (s : HandlerState),
        read_next_dataset P objects s
          = read_all P objects
              (cleanup_old_data
                { s with start_date := s.start_date + 24 * s.days_per_query })
              (s.start_date + 24 * s.days_per_query)
              (s.start_date + 24 * s.days_per_query + 24 * s.days_per_query)) := by
  refine ⟨?_, ?_, ?_⟩
  · intro s e he
    have := (List.mem_filter.mp he).2
    simpa using this
  · intro s e he hge
    refine List.mem_filter.mpr ⟨he, ?_⟩
    simpa using hge
  · intro P objects s
    rfl

/-- C8 witness: the eviction frame applied to a concrete two-entry state:
the entry at hour 7 survives the eviction at cutoff 5 unchanged. -/
theorem eviction_frame_witness :
    ((("b", 7), (⟨0, 1, [("KafkaStorage", 1)]⟩ : ChargebackEntry))
        ∈ (cleanup_old_data stateEx).chargeback_dataset)
    ∧ stateEx.start_date ≤ (7 : Int) := by
  have hmem := eviction_frame.2.1 stateEx
    (("b", 7), (⟨0, 1, [("KafkaStorage", 1)]⟩ : ChargebackEntry))
    (by simp [stateEx]) (by norm_num [stateEx])
  exact ⟨hmem, eviction_frame.1 stateEx _ hmem⟩

/-- Sum of everything one row merged into the ledger. -/
def total_allocated (r : RowResult) : Dec :=
  (r.items.map (fun it => it.additional_usage_cost + it.additional_shared_cost)).sum

/-- Inventory fixture: `lkc-1` has one API-key holder, `lkc-2` has two, any
other cluster none; the org knows three service accounts and two users. -/
def objectsEx : CCloudObjects :=
  { find_sa_count_for_clusters := fun cid =>
      if cid = "lkc-1" then [("sa-1", 1)]
      else if cid = "lkc-2" then [("sa-1", 1), ("sa-2", 1)]
      else []
    sa_ids := ["sa-1", "sa-2", "sa-3"]
    user_ids := ["u-1", "u-2"]
    connectors := []
    clusters := []
    ksqldb_clusters := [] }

/-- Inventory fixture with no identities at all. -/
def emptyObjectsEx : CCloudObjects :=
  { find_sa_count_for_clusters := fun _ => []
    sa_ids := []
    user_ids := []
    connectors := []
    clusters := []
    ksqldb_clusters := [] }

/-- A KafkaBase billing row on a cluster with one API-key holder. -/
def kafkaBaseRowEx : BillingRow :=
  { row_ts := 100, row_env := "env-1", row_cid := "lkc-1", row_pname := "KAFKA"
    row_ptype := "KafkaBase", row_cname := "cluster-1", row_cost := 10 }

/-- A KafkaBase billing row on a cluster with no API-key holders. -/
def kafkaBaseFallbackRowEx : BillingRow :=
  { row_ts := 100, row_env := "env-1", row_cid := "lkc-0", row_pname := "KAFKA"
    row_ptype := "KafkaBase", row_cname := "cluster-0", row_cost := 10 }

/-- A KafkaNumCKUs billing row on a cluster with no holders and (with empty
metrics) no measured activity: the only branch of that rule that completes. -/
def ckuFallbackRowEx : BillingRow :=
  { row_ts := 100, row_env := "env-1", row_cid := "lkc-0", row_pname := "KAFKA"
    row_ptype := "KafkaNumCKUs", row_cname := "cluster-0", row_cost := 100 }

/-- The KafkaNumCKUs scenario row: cost 100 on a cluster with two holders. -/
def ckuScenarioRowEx : BillingRow :=
  { row_ts := 200, row_env := "env-1", row_cid := "lkc-2", row_pname := "KAFKA"
    row_ptype := "KafkaNumCKUs", row_cname := "cluster-2", row_cost := 100 }

/-- The scenario metrics: `sa-1` carries 80% of combined read+write bytes at
hour 200 on `lkc-2`, `sa-2` carries 20%. -/
def scenarioMetricsEx : List MetricRow :=
  [⟨200, "lkc-2", "sa-1", 80, 80⟩, ⟨200, "lkc-2", "sa-2", 20, 20⟩]

/-- An EventLogRead billing row with cost 10. -/
def eventLogRowEx : BillingRow :=
  { row_ts := 300, row_env := "env-1", row_cid := "lkc-1", row_pname := "AUDIT"
    row_ptype := "EventLogRead", row_cname := "cluster-1", row_cost := 10 }

/-- C1 — Conservation fails on the code: a KafkaBase row on a cluster WITH
API-key holders merges nothing (the split loop raises an `AttributeError`
through the name-mangled dict attribute), so the sum merged is 0, not the
cost 10; and the one KafkaNumCKUs branch that completes allocates
`cost * (Decimal(0.30) + Decimal(0.70))`, which is not the cost, because the
two ratio constants are converted from binary floats. -/
theorem conservation_fails_on_code :
    compute_output [kafkaBaseRowEx] objectsEx [] 100 [] = ([], some datasetAttrError)
    ∧ kafkaBaseRowEx.row_cost = 10
    ∧ (compute_output_row ckuFallbackRowEx objectsEx [] 100).error = none
    ∧ total_allocated (compute_output_row ckuFallbackRowEx objectsEx [] 100)
        ≠ ckuFallbackRowEx.row_cost := by
  refine ⟨by decide, by decide, by decide, ?_⟩
  simp [compute_output_row, ckuFallbackRowEx, objectsEx, total_allocated,
    cku_shared_component, cku_metric_rows]
  norm_num [dec_0_30, dec_0_70]

/-- C2 — KafkaBase fallback determinism on the code: with one API-key holder
the split branch raises (name-mangled dict attribute) and merges nothing,
instead of one contribution of `C`; with zero holders the fallback does merge
a single shared contribution of the full cost to the cluster id. -/
theorem kafka_base_split_branch_raises :
    compute_output_row kafkaBaseRowEx objectsEx [] 100
      = ⟨[], some datasetAttrError, []⟩
    ∧ compute_output_row kafkaBaseFallbackRowEx objectsEx [] 100
      = ⟨[⟨"lkc-0", 100, "KafkaBase", 0, 10⟩], none,
         ["No API Keys available for cluster; attributing KafkaBase as Cluster Shared Cost"]⟩ := by
  exact ⟨by decide, by decide⟩

/-- C5 — KafkaNumCKUs scenario on the code: with two holders and 80/20
metrics present, the row merges the two shared contributions of
`100 * Decimal(0.30) / 2` each — which is not 15, since `Decimal(0.30)` is
the binary float, not `3/10` — and then raises in the usage computation
(`query_dataset.values()` on a list), so the usage costs 56 and 14 are never
merged and no entry totals 71 or 29. -/
theorem kafka_num_ckus_scenario_crashes :
    compute_output_row ckuScenarioRowEx objectsEx scenarioMetricsEx 200
      = ⟨[⟨"sa-1", 200, "KafkaNumCKUs", 0, 100 * dec_0_30 / 2⟩,
          ⟨"sa-2", 200, "KafkaNumCKUs", 0, 100 * dec_0_30 / 2⟩],
         some listValuesError, []⟩
    ∧ 100 * dec_0_30 / 2 ≠ 15 := by
  constructor
  · simp [compute_output_row, ckuScenarioRowEx, objectsEx, scenarioMetricsEx,
      cku_shared_component, cku_metric_rows]
  · norm_num [dec_0_30]

/-- C6 — EventLogRead scenario on the code: with five known identities the
row does not merge five contributions of 2; it raises a `NameError` (the
bare name `objects_dataset`) before computing any identity, merging
nothing. -/
theorem event_log_read_scenario_raises :
    compute_output_row eventLogRowEx objectsEx [] 300
      = ⟨[], some eventLogNameError, []⟩
    ∧ objectsEx.sa_ids.length + objectsEx.user_ids.length = 5
    ∧ eventLogRowEx.row_cost = 10 := by
  exact ⟨by decide, by decide, by decide⟩

/-- C4 counterexample — with zero known identities, an EventLogRead row does
not route its cost 10 to any fallback pseudo-principal: the row raises and
merges nothing at all. -/
theorem event_log_read_zero_identities_drop :
    (compute_output_row eventLogRowEx emptyObjectsEx [] 300).items = []
    ∧ (compute_output_row eventLogRowEx emptyObjectsEx [] 300).error ≠ none
    ∧ eventLogRowEx.row_cost = 10
    ∧ emptyObjectsEx.sa_ids.length + emptyObjectsEx.user_ids.length = 0 := by
  exact ⟨by decide, by decide, by decide, by decide⟩

/-- The product types the `elif` chain of `compute_output` handles. -/
def catalogued_product_types : List String :=
  ["KafkaBase", "KafkaNetworkRead", "KafkaNetworkWrite", "KafkaNumCKUs",
   "KafkaPartition", "KafkaStorage", "EventLogRead", "ConnectCapacity",
   "ConnectNumTasks", "ConnectThroughput", "ClusterLinkingPerLink",
   "ClusterLinkingRead", "ClusterLinkingWrite", "GovernanceBase",
   "SchemaRegistry", "KSQLNumCSUs"]

/-- C9 — Unknown product type: a billing row whose product type is none of
the catalogued values merges nothing, leaves the chargeback dataset exactly
as it was, raises no exception, and emits a warning print. -/
theorem unknown_product_type_dropped (row : BillingRow)
    (objects : CCloudObjects) (metrics : List MetricRow) (ts : Int)
    (ds : ChargebackDataset) (h : row.row_ptype ∉ catalogued_product_types) :
    compute_output_row row objects metrics ts
      = ⟨[], none,
         ["No Chargeback calculation available for this product type. Please request for it to be added."]⟩
    ∧ compute_output [row] objects metrics ts ds = (ds, none) := by
  simp only [catalogued_product_types, List.mem_cons, List.not_mem_nil, or_false,
    not_or] at h
  obtain ⟨h1, h2, h3, h4, h5, h6, h7, h8, h9, h10, h11, h12, h13, h14, h15, h16⟩ := h
  have hrow : compute_output_row row objects metrics ts
      = ⟨[], none,
         ["No Chargeback calculation available for this product type. Please request for it to be added."]⟩ := by
    simp [compute_output_row, h1, h2, h3, h4, h5, h6, h7, h8, h9, h10, h11, h12,
      h13, h14, h15, h16]
  exact ⟨hrow, by simp [compute_output, hrow, apply_row_result]⟩

/-- A billing row with a product type outside the catalogue. -/
def unknownRowEx : BillingRow :=
  { row_ts := 400, row_env := "env-1", row_cid := "lkc-1", row_pname := "NEW"
    row_ptype := "NewProductType", row_cname := "cluster-1", row_cost := 42 }

/-- C9 witness: the unknown-product-type theorem at a concrete row. -/
theorem unknown_product_type_dropped_witness :
    compute_output_row unknownRowEx objectsEx [] 400
      = ⟨[], none,
         ["No Chargeback calculation available for this product type. Please request for it to be added."]⟩
    ∧ compute_output [unknownRowEx] objectsEx [] 400 [] = ([], none) :=
  unknown_product_type_dropped unknownRowEx objectsEx [] 400 [] (by decide)

/-- C10 — Non-atomic KafkaNumCKUs processing: whenever at least one metric
row exists at the slice for the cluster, the row merges exactly its
30%-shared component (whose contributions are all shared, never usage) and
then raises in the usage computation, so within `compute_output` the ledger
keeps the partial allocation and the error propagates. -/
theorem kafka_num_ckus_partial_allocation (row : BillingRow)
    (objects : CCloudObjects) (metrics : List MetricRow) (ts : Int)
    (hpt : row.row_ptype = "KafkaNumCKUs")
    (hm : cku_metric_rows metrics ts row.row_cid ≠ []) :
    compute_output_row row objects metrics ts
      = ⟨cku_shared_component row (objects.find_sa_count_for_clusters row.row_cid),
         some listValuesError,
         if 0 < (objects.find_sa_count_for_clusters row.row_cid).length then []
         else ["No API Keys were found for cluster; attributing Common Cost component as Cluster Shared Cost"]⟩
    ∧ (∀ it ∈ cku_shared_component row (objects.find_sa_count_for_clusters row.row_cid),
        it.additional_usage_cost = 0)
    ∧ (∀ ds : ChargebackDataset,
        compute_output [row] objects metrics ts ds
          = (apply_row_result ds (compute_output_row row objects metrics ts),
             some listValuesError)) := by
  have hrow : compute_output_row row objects metrics ts
      = ⟨cku_shared_component row (objects.find_sa_count_for_clusters row.row_cid),
         some listValuesError,
         if 0 < (objects.find_sa_count_for_clusters row.row_cid).length then []
         else ["No API Keys were found for cluster; attributing Common Cost component as Cluster Shared Cost"]⟩ := by
    simp [compute_output_row, hpt, hm]
  refine ⟨hrow, ?_, ?_⟩
  · intro it hit
    unfold cku_shared_component at hit
    by_cases hsa : 0 < (objects.find_sa_count_for_clusters row.row_cid).length
    · simp only [if_pos hsa, List.mem_map] at hit
      obtain ⟨sa, _, rfl⟩ := hit
      rfl
    · simp only [if_neg hsa, List.mem_singleton] at hit
      subst hit
      rfl
  · intro ds
    simp [compute_output, hrow]

/-- C10 witness: the partial-allocation theorem at the concrete scenario
(two holders, metrics present): only the equality conjunct, instantiated. -/
theorem kafka_num_ckus_partial_allocation_witness :
    cku_metric_rows scenarioMetricsEx 200 ckuScenarioRowEx.row_cid ≠ []
    ∧ compute_output_row ckuScenarioRowEx objectsEx scenarioMetricsEx 200
      = ⟨cku_shared_component ckuScenarioRowEx
           (objectsEx.find_sa_count_for_clusters ckuScenarioRowEx.row_cid),
         some listValuesError,
         if 0 < (objectsEx.find_sa_count_for_clusters ckuScenarioRowEx.row_cid).length then []
         else ["No API Keys were found for cluster; attributing Common Cost component as Cluster Shared Cost"]⟩ :=
  ⟨by decide,
   (kafka_num_ckus_partial_allocation ckuScenarioRowEx objectsEx scenarioMetricsEx
      200 rfl (by decide)).1⟩

/-- C4 (amended) — Zero-recipient handling: a recipient count of zero never
reaches a division (each rule tests the count, or iterates an empty list,
first); for KafkaBase, KafkaPartition, KafkaStorage, KafkaNetworkRead,
KafkaNetworkWrite, ConnectNumTasks, ConnectThroughput, GovernanceBase,
SchemaRegistry and KSQLNumCSUs the whole cost is routed as a single
division-free contribution to the named fallback pseudo-principal (cluster
id, or environment id for the governance rules); KafkaNumCKUs routes its two
components `cost * Decimal(0.30)` and `cost * Decimal(0.70)` to the cluster
id; but EventLogRead and ConnectCapacity never route anything to a fallback:
they raise (undefined names) with nothing merged, so EventLogRead in
particular never divides at all. -/
theorem zero_recipients_fallback_routing :
    (∀ (row : BillingRow) (objects : CCloudObjects) (m : List MetricRow) (ts : Int),
        (row.row_ptype = "KafkaBase" ∨ row.row_ptype = "KafkaPartition"
          ∨ row.row_ptype = "KafkaStorage") →
        objects.find_sa_count_for_clusters row.row_cid = [] →
        compute_output_row row objects m ts
          = ⟨[⟨row.row_cid, row.row_ts, row.row_ptype, 0, row.row_cost⟩], none,
             (compute_output_row row objects m ts).logs⟩)
    ∧ (∀ (row : BillingRow) (objects : CCloudObjects) (m : List MetricRow) (ts : Int),
        row.row_ptype = "KafkaNetworkRead" →
        m.filter (fun mr => decide (0 < mr.response_bytes)
          && decide (mr.timestamp = ts) && decide (mr.cluster_id = row.row_cid)) = [] →
        compute_output_row row objects m ts
          = ⟨[⟨row.row_cid, row.row_ts, row.row_ptype, 0, row.row_cost⟩], none,
             ["Could not map KafkaNetworkRead; attributing as Cluster Shared Cost"]⟩)
    ∧ (∀ (row : BillingRow) (objects : CCloudObjects) (m : List MetricRow) (ts : Int),
        row.row_ptype = "KafkaNetworkWrite" →
        m.filter (fun mr => decide (0 < mr.request_bytes)
          && decide (mr.timestamp = ts) && decide (mr.cluster_id = row.row_cid)) = [] →
        compute_output_row row objects m ts
          = ⟨[⟨row.row_cid, row.row_ts, row.row_ptype, 0, row.row_cost⟩], none,
             ["Could not map KafkaNetworkWrite; attributing as Cluster Shared Cost"]⟩)
    ∧ (∀ (row : BillingRow) (objects : CCloudObjects) (m : List MetricRow) (ts : Int),
        row.row_ptype = "KafkaNumCKUs" →
        objects.find_sa_count_for_clusters row.row_cid = [] →
        cku_metric_rows m ts row.row_cid = [] →
        compute_output_row row objects m ts
          = ⟨[⟨row.row_cid, row.row_ts, row.row_ptype, 0, row.row_cost * dec_0_30⟩,
              ⟨row.row_cid, row.row_ts, row.row_ptype, 0, row.row_cost * dec_0_70⟩],
             none, (compute_output_row row objects m ts).logs⟩)
    ∧ (∀ (row : BillingRow) (objects : CCloudObjects) (m : List MetricRow) (ts : Int),
        (row.row_ptype = "ConnectNumTasks" ∨ row.row_ptype = "ConnectThroughput") →
        objects.connectors.filter (fun c => decide (c.env_id = row.row_env)
          && decide (c.connector_name = row.row_cname)) = [] →
        compute_output_row row objects m ts
          = ⟨[⟨row.row_cid, row.row_ts, row.row_ptype, 0, row.row_cost⟩], none,
             ["No Connector Details were found; adding cost as Shared Cost"]⟩)
    ∧ (∀ (row : BillingRow) (objects : CCloudObjects) (m : List MetricRow) (ts : Int),
        (row.row_ptype = "GovernanceBase" ∨ row.row_ptype = "SchemaRegistry") →
        objects.clusters.filter (fun c => decide (c.env_id = row.row_env)) = [] →
        compute_output_row row objects m ts
          = ⟨[⟨row.row_env, row.row_ts, row.row_ptype, 0, row.row_cost⟩], none,
             ["No Kafka Clusters present within the environment; attributing as Shared Cost to the environment"]⟩)
    ∧ (∀ (row : BillingRow) (objects : CCloudObjects) (m : List MetricRow) (ts : Int),
        row.row_ptype = "KSQLNumCSUs" →
        objects.ksqldb_clusters.filter (fun c => decide (c.cluster_id = row.row_cid)) = [] →
        compute_output_row row objects m ts
          = ⟨[⟨row.row_cid, row.row_ts, row.row_ptype, 0, row.row_cost⟩], none,
             ["No KSQL Cluster Details were found; attributing as Shared Cost for the ksqlDB cluster id"]⟩)
    ∧ (∀ (row : BillingRow) (objects : CCloudObjects) (m : List MetricRow) (ts : Int),
        row.row_ptype = "EventLogRead" ∨ row.row_ptype = "ConnectCapacity" →
        (compute_output_row row objects m ts).items = []
          ∧ (compute_output_row row objects m ts).error ≠ none) := by
  refine ⟨?_, ?_, ?_, ?_, ?_, ?_, ?_, ?_⟩
  · intro row objects m ts hpt hsa
    rcases hpt with hpt | hpt | hpt <;> simp [compute_output_row, hpt, hsa]
  · intro row objects m ts hpt hm
    simp [compute_output_row, hpt, hm]
  · intro row objects m ts hpt hm
    simp [compute_output_row, hpt, hm]
  · intro row objects m ts hpt hsa hm
    simp [compute_output_row, hpt, hsa, hm, cku_shared_component]
  · intro row objects m ts hpt hc
    rcases hpt with hpt | hpt <;> simp [compute_output_row, hpt, hc]
  · intro row objects m ts hpt hc
    rcases hpt with hpt | hpt <;> simp [compute_output_row, hpt, hc]
  · intro row objects m ts hpt hc
    simp [compute_output_row, hpt, hc]
  · intro row objects m ts hpt
    rcases hpt with hpt | hpt <;> simp [compute_output_row, hpt]

/-- C4 witness: the fallback-routing theorem applied at concrete
zero-recipient inputs (KafkaBase with no holders; KSQLNumCSUs with no owner
records; EventLogRead raising). -/
theorem zero_recipients_fallback_routing_witness :
    compute_output_row kafkaBaseFallbackRowEx emptyObjectsEx [] 100
      = ⟨[⟨kafkaBaseFallbackRowEx.row_cid, kafkaBaseFallbackRowEx.row_ts,
           kafkaBaseFallbackRowEx.row_ptype, 0, kafkaBaseFallbackRowEx.row_cost⟩],
         none, (compute_output_row kafkaBaseFallbackRowEx emptyObjectsEx [] 100).logs⟩
    ∧ ((compute_output_row eventLogRowEx objectsEx [] 300).items = []
        ∧ (compute_output_row eventLogRowEx objectsEx [] 300).error ≠ none) :=
  ⟨zero_recipients_fallback_routing.1 kafkaBaseFallbackRowEx emptyObjectsEx [] 100
      (Or.inl rfl) rfl,
   zero_recipients_fallback_routing.2.2.2.2.2.2.2 eventLogRowEx objectsEx [] 300
      (Or.inl rfl)⟩

end Chargeback
